import Mathlib

/-!
Shallow embedding of the two scripts of this repository and proofs of the
specification claims about them.

`PdfChatbot` embeds `codes_streamlit_project_v2.py`: the session state, the
chat handlers `handle_user_input` and `process_pending_user_message`, the
document pipeline `process_pdf_document` with `create_upload_interface`, and
`renderPass`, one full top-to-bottom run of `main`'s script body.  External
library behavior (PDF loading, splitting, embedding, FAISS, the chat model
and the retrieval chain) is supplied as an environment of call results; a
raised exception is an `Except.error` carrying the exception message.
`st.rerun()` aborts the current run, so the embedding of each handler stops
at the point where the source calls it.

`TaskApp` embeds the task-management mini-app of
`codes_streamlit_components.py` (`demo_mini_application`).
-/

namespace PdfChatbot

/-- Role tag of a chat transcript entry. -/
inductive Role where
  | user
  | assistant
deriving DecidableEq

/-- One entry of `st.session_state.messages`. -/
structure Message where
  role : Role
  content : String
deriving DecidableEq

/-- A FAISS vector store, identified by its docstore contents (text chunks). -/
abbrev VStore := List String

/-- Opaque handle to a `ConversationalRetrievalChain` object. -/
abbrev Chain := Nat

/-- Sidebar model settings kept in session state. -/
structure Config where
  temperature : ℚ
  max_tokens : Nat
  chunk_size : Nat
deriving DecidableEq

/-- The per-session state (`st.session_state` fields of the chatbot), plus
the process-level `OPENAI_API_KEY` environment variable, which survives
reruns just like session state does. -/
structure AppState where
  messages : List Message
  vectorstore : Option VStore
  conversation_chain : Option Chain
  uploaded_file_name : Option String
  config : Config
  is_thinking : Bool
  pending_question : Option String
  envKey : Option String
deriving DecidableEq

/-- Python truthiness of an optional string: `None` and `""` are falsy. -/
def truthyStr : Option String → Bool
  | none => false
  | some s => !(s == "")

/-- `initialize_session_state` on a fresh session: every field gets its
default; the environment may or may not already carry an API key. -/
def init_session_state (envKey : Option String) : AppState :=
  { messages := []
    vectorstore := none
    conversation_chain := none
    uploaded_file_name := none
    config := { temperature := 7/10, max_tokens := 1000, chunk_size := 1000 }
    is_thinking := false
    pending_question := none
    envKey := envKey }

/-- Result of one UI handler: the session state it leaves behind, the list
of questions it sent to the conversation chain, and whether it ended in
`st.rerun()`. -/
structure StepResult where
  state : AppState
  chainCalls : List String
  rerun : Bool
deriving DecidableEq

/-- Outcome of invoking the conversation chain on a question: the returned
answer, or the message of a raised exception. -/
inductive ChainResult where
  | ok (answer : String)
  | err (msg : String)
deriving DecidableEq

/-- The content the chain invocation contributes to the transcript: the
answer on success, the error banner built from `str(e)` on an exception. -/
def chain_answer (oracle : String → ChainResult) (q : String) : String :=
  match oracle q with
  | .ok answer => answer
  | .err e => "Sorry, I encountered an error: " ++ e

/-- The `disabled` flag of the chat input widget. -/
def chatDisabled (s : AppState) : Bool :=
  s.is_thinking || s.conversation_chain.isNone

/-- `handle_user_input`: read the chat input (a disabled widget yields no
value), and on a truthy submission record the user message, mark it pending,
set `is_thinking` and rerun.  The `oracle` parameter stands for the
conversation chain; `chainCalls` records every question sent to it. -/
def handle_user_input (oracle : String → ChainResult) (user_input : Option String)
    (s : AppState) : StepResult :=
  let input := if chatDisabled s then none else user_input
  if truthyStr input then
    { state := { s with
        messages := s.messages ++ [⟨Role.user, input.getD ""⟩]
        pending_question := input
        is_thinking := true }
      chainCalls := []
      rerun := true }
  else
    { state := s, chainCalls := [], rerun := false }

/-- `process_pending_user_message`: with a question pending while
`is_thinking`, either guide the user when no chain exists, or invoke the
chain inside try/except; in every case append one assistant entry, clear the
pending slot and the thinking flag, and rerun. -/
def process_pending_user_message (oracle : String → ChainResult)
    (s : AppState) : StepResult :=
  if !s.is_thinking || !truthyStr s.pending_question then
    { state := s, chainCalls := [], rerun := false }
  else if s.conversation_chain.isNone then
    { state := { s with
        messages := s.messages ++
          [⟨Role.assistant, "Please upload a PDF document first to start chatting!"⟩]
        pending_question := none
        is_thinking := false }
      chainCalls := []
      rerun := true }
  else
    let q := s.pending_question.getD ""
    { state := { s with
        messages := s.messages ++ [⟨Role.assistant, chain_answer oracle q⟩]
        pending_question := none
        is_thinking := false }
      chainCalls := [q]
      rerun := true }

/-- An uploaded file object: its name, raw bytes and size. -/
structure UFile where
  name : String
  content : String
  size : Nat
deriving DecidableEq

/-- Behavior of the external libraries during one call of
`process_pdf_document`: each field gives the result of the corresponding
library call, where `Except.error` is a raised exception. -/
structure PdfEnv where
  tmpWrite : String → Except String Unit
  load : String → Except String (List String)
  split : Nat → List String → Except String (List String)
  embed : Except String Unit
  faiss : List String → Except String VStore
  chat : ℚ → Nat → Except String Unit
  memory : Except String Unit
  chain : VStore → Except String Chain
  unlink : Except String Unit

/-- The try-block body of `process_pdf_document`, without its except
handler: `Except.error (e, s1)` means exception `e` propagates out of the
body with `s1` the session state at the moment it is raised. -/
def process_pdf_try_body (env : PdfEnv) (f : UFile) (s : AppState) :
    Except (String × AppState) (AppState × Bool) :=
  match env.tmpWrite f.content with
  | .error e => .error (e, s)
  | .ok _ =>
    match env.load f.content with
    | .error e => .error (e, s)
    | .ok documents =>
      match env.split s.config.chunk_size documents with
      | .error e => .error (e, s)
      | .ok texts =>
        match env.embed with
        | .error e => .error (e, s)
        | .ok _ =>
          match env.faiss texts with
          | .error e => .error (e, s)
          | .ok vectorstore =>
            let s1 := { s with vectorstore := some vectorstore }
            match env.chat s.config.temperature s.config.max_tokens with
            | .error e => .error (e, s1)
            | .ok _ =>
              match env.memory with
              | .error e => .error (e, s1)
              | .ok _ =>
                match env.chain vectorstore with
                | .error e => .error (e, s1)
                | .ok c =>
                  let s2 := { s1 with conversation_chain := some c }
                  match env.unlink with
                  | .error e => .error (e, s2)
                  | .ok _ => .ok (s2, true)

/-- `process_pdf_document`: the availability guard, then the try body
wrapped in the except handler that reports the error and returns `False`. -/
def process_pdf_document (available : Bool) (env : PdfEnv) (f : UFile)
    (s : AppState) : AppState × Bool :=
  if !available then (s, false)
  else
    match process_pdf_try_body env f s with
    | .ok r => r
    | .error (_, s1) => (s1, false)

/-- `create_upload_interface`: process the file iff its name differs from
the stored `uploaded_file_name`, recording the name only on success.  The
second component reports whether `process_pdf_document` was invoked. -/
def create_upload_interface (available : Bool) (env : PdfEnv)
    (file : Option UFile) (s : AppState) : AppState × Bool :=
  match file with
  | none => (s, false)
  | some f =>
    if s.uploaded_file_name ≠ some f.name then
      let r := process_pdf_document available env f s
      if r.2 then ({ r.1 with uploaded_file_name := some f.name }, true)
      else (r.1, true)
    else (s, false)

/-- The four sample-question button labels of `main`. -/
def sample_questions : List String :=
  ["What is the main topic of this document?",
   "Can you summarize the key points?",
   "What are the important details mentioned?",
   "Are there any specific recommendations?"]

/-- The single widget interaction (at most one per rerun) that triggered the
current run of the script. -/
inductive Interaction where
  | idle
  | chatInput (q : String)
  | sampleClick (i : Fin 4)
  | clearConv
  | setConfig (c : Config)
  | typeApiKey (k : String)

/-- Everything one run of the script reads from outside the session state:
the triggering interaction, the file sitting in the uploader widget, and the
behavior of the external libraries during this run. -/
structure RenderInput where
  interaction : Interaction
  file : Option UFile
  pdfEnv : PdfEnv
  oracle : String → ChainResult

/-- Which `st.stop()` gate of `main` ended the run, when one did. -/
inductive StopKind where
  | missingDeps
  | missingKey
deriving DecidableEq

/-- Outcome of one full run of `main`'s script body. -/
structure RenderResult where
  state : AppState
  stopped : Option StopKind
  ranUpload : Bool
  ranChat : Bool
  chainCalls : List String

/-- `create_configuration_sidebar`: may store a typed API key into the
environment, update the slider values, or clear the conversation. -/
def create_configuration_sidebar (input : RenderInput) (s : AppState) : AppState :=
  match input.interaction with
  | .typeApiKey k =>
    if !truthyStr s.envKey && !(k == "") then { s with envKey := some k } else s
  | .setConfig c => { s with config := c }
  | .clearConv => { s with messages := [] }
  | _ => s

/-- The value produced by the chat input widget during this run: the
submitted text when this run was triggered by a chat submission. -/
def chat_input_value (inter : Interaction) : Option String :=
  match inter with
  | .chatInput q => some q
  | _ => none

/-- The question fired by the sample-question buttons during this run: the
clicked button's label, provided the buttons are rendered (a document name
is stored) and enabled (not thinking). -/
def sample_click_value (inter : Interaction) (t : AppState) : Option String :=
  match inter with
  | .sampleClick i =>
    if truthyStr t.uploaded_file_name && !t.is_thinking then
      some (sample_questions.getD i.val "")
    else none
  | _ => none

/-- One full top-to-bottom run of `main`'s script body: sidebar, the
dependency and API-key gates, the upload column, the sample-question
buttons, the chat input, then the pending-question processor.  `st.rerun()`
aborts the run at the point where it is raised. -/
def renderPass (available : Bool) (input : RenderInput) (s : AppState) :
    RenderResult :=
  let s1 := create_configuration_sidebar input s
  if !available then
    { state := s1, stopped := some StopKind.missingDeps
      ranUpload := false, ranChat := false, chainCalls := [] }
  else if !truthyStr s1.envKey then
    { state := s1, stopped := some StopKind.missingKey
      ranUpload := false, ranChat := false, chainCalls := [] }
  else
    let s2 := (create_upload_interface available input.pdfEnv input.file s1).1
    match sample_click_value input.interaction s2 with
    | some q =>
      { state := { s2 with
          messages := s2.messages ++ [⟨Role.user, q⟩]
          pending_question := some q
          is_thinking := true }
        stopped := none, ranUpload := true, ranChat := true, chainCalls := [] }
    | none =>
      let hr := handle_user_input input.oracle (chat_input_value input.interaction) s2
      if hr.rerun then
        { state := hr.state, stopped := none
          ranUpload := true, ranChat := true, chainCalls := [] }
      else
        let pr := process_pending_user_message input.oracle hr.state
        { state := pr.state, stopped := none
          ranUpload := true, ranChat := true, chainCalls := pr.chainCalls }

/-- The session states reachable from a fresh session through render passes.
`available` (`LANGCHAIN_AVAILABLE`) is fixed for the process. -/
inductive Reachable (available : Bool) : AppState → Prop where
  | init (envKey : Option String) : Reachable available (init_session_state envKey)
  | step {s : AppState} (input : RenderInput) :
      Reachable available s → Reachable available (renderPass available input s).state

/-- A session state with a processed document and a live chain, used to
instantiate the theorems at concrete inputs. -/
def sDemo : AppState :=
  { messages := []
    vectorstore := some ["chunk one"]
    conversation_chain := some 0
    uploaded_file_name := some "demo.pdf"
    config := { temperature := 7/10, max_tokens := 1000, chunk_size := 1000 }
    is_thinking := false
    pending_question := none
    envKey := some "sk-demo" }

/-- A chain invocation that always answers. -/
def oracleOk : String → ChainResult := fun _ => .ok "The answer."

/-- A chain invocation that always raises. -/
def oracleErr : String → ChainResult := fun _ => .err "boom"

/-- A library environment in which every call succeeds. -/
def pdfEnvOk : PdfEnv :=
  { tmpWrite := fun _ => .ok ()
    load := fun _ => .ok ["page one"]
    split := fun _ docs => .ok docs
    embed := .ok ()
    faiss := fun texts => .ok texts
    chat := fun _ _ => .ok ()
    memory := .ok ()
    chain := fun _ => .ok 1
    unlink := .ok () }

/-- A library environment in which the `ChatOpenAI` constructor raises,
after `FAISS.from_documents` has already succeeded. -/
def pdfEnvChatFail : PdfEnv := { pdfEnvOk with chat := fun _ _ => .error "rate limit" }

/-- A library environment in which `PyPDFLoader.load` raises. -/
def pdfEnvLoadFail : PdfEnv := { pdfEnvOk with load := fun _ => .error "corrupt pdf" }

/-- A fresh uploaded file whose name differs from `sDemo`'s stored one. -/
def fNew : UFile := { name := "new.pdf", content := "pdfbytes", size := 10 }

end PdfChatbot

namespace TaskApp

/-- One task of the task-management mini-app. -/
structure Task where
  id : Nat
  title : String
  status : String
  priority : String
  due : String
deriving DecidableEq

/-- The mini-app's session state: the task list and the id counter. -/
structure TasksState where
  tasks : List Task
  task_counter : Nat
deriving DecidableEq

/-- The session-state initialization of `demo_mini_application`. -/
def init_tasks_state : TasksState :=
  { tasks :=
      [⟨1, "Complete Streamlit tutorial", "In Progress", "High", "2024-02-15"⟩,
       ⟨2, "Build demo application", "Completed", "Medium", "2024-02-10"⟩]
    task_counter := 3 }

/-- The Add Task form submit handler: with a nonempty title, append a task
carrying the current counter as id and increment the counter. -/
def add_task (title priority due : String) (s : TasksState) : TasksState :=
  if title ≠ "" then
    { tasks := s.tasks ++ [⟨s.task_counter, title, "Todo", priority, due⟩]
      task_counter := s.task_counter + 1 }
  else s

/-- A task's delete button handler: keep the tasks of every other id. -/
def delete_task (id : Nat) (s : TasksState) : TasksState :=
  { s with tasks := s.tasks.filter (fun t => t.id != id) }

/-- The mini-app states reachable from initialization through form submits
and delete clicks. -/
inductive TReachable : TasksState → Prop where
  | init : TReachable init_tasks_state
  | add (title priority due : String) {s : TasksState} :
      TReachable s → TReachable (add_task title priority due s)
  | delete (id : Nat) {s : TasksState} :
      TReachable s → TReachable (delete_task id s)

end TaskApp

namespace PdfChatbot

/-- The fields of the session state that `process_pdf_document` never
touches, here stated of both the propagating and the recovered outcome of
its try body. -/
def OtherFieldsKept (s : AppState) :
    Except (String × AppState) (AppState × Bool) → Prop
  | .error (_, s1) =>
      s1.messages = s.messages ∧ s1.is_thinking = s.is_thinking ∧
      s1.pending_question = s.pending_question ∧ s1.envKey = s.envKey ∧
      s1.uploaded_file_name = s.uploaded_file_name ∧ s1.config = s.config
  | .ok (s2, _) =>
      s2.messages = s.messages ∧ s2.is_thinking = s.is_thinking ∧
      s2.pending_question = s.pending_question ∧ s2.envKey = s.envKey ∧
      s2.uploaded_file_name = s.uploaded_file_name ∧ s2.config = s.config

lemma try_body_keeps_other_fields (env : PdfEnv) (f : UFile) (s : AppState) :
    OtherFieldsKept s (process_pdf_try_body env f s) := by
  unfold process_pdf_try_body
  repeat' split
  all_goals simp [OtherFieldsKept]

lemma pdf_keeps_other_fields (available : Bool) (env : PdfEnv) (f : UFile)
    (s : AppState) :
    let s1 := (process_pdf_document available env f s).1
    s1.messages = s.messages ∧ s1.is_thinking = s.is_thinking ∧
    s1.pending_question = s.pending_question ∧ s1.envKey = s.envKey ∧
    s1.config = s.config := by
  have h := try_body_keeps_other_fields env f s
  unfold process_pdf_document
  split
  · exact ⟨rfl, rfl, rfl, rfl, rfl⟩
  · split
    all_goals
      rename_i heq
      rw [heq] at h
      simp [OtherFieldsKept] at h
      tauto

lemma upload_keeps_chat_fields (available : Bool) (env : PdfEnv)
    (file : Option UFile) (s : AppState) :
    let s1 := (create_upload_interface available env file s).1
    s1.messages = s.messages ∧ s1.is_thinking = s.is_thinking ∧
    s1.pending_question = s.pending_question ∧ s1.envKey = s.envKey := by
  unfold create_upload_interface
  split
  · exact ⟨rfl, rfl, rfl, rfl⟩
  · rename_i f
    dsimp only
    split
    · have h := pdf_keeps_other_fields available env f s
      split <;> simp_all
    · exact ⟨rfl, rfl, rfl, rfl⟩

lemma sidebar_keeps_chat_fields (input : RenderInput) (s : AppState) :
    let s1 := create_configuration_sidebar input s
    s1.is_thinking = s.is_thinking ∧ s1.pending_question = s.pending_question ∧
    s1.conversation_chain = s.conversation_chain ∧
    s1.uploaded_file_name = s.uploaded_file_name := by
  unfold create_configuration_sidebar
  repeat' split <;> simp_all

/-- The pending-slot / thinking-flag invariant: either nothing is pending
and the app is not thinking, or exactly one nonempty question is pending
and the app is thinking. -/
def StateInv (s : AppState) : Prop :=
  (s.pending_question = none ∧ s.is_thinking = false) ∨
  (∃ q, s.pending_question = some q ∧ q ≠ "" ∧ s.is_thinking = true)

lemma StateInv_of_fields {s t : AppState}
    (hp : t.pending_question = s.pending_question)
    (ht : t.is_thinking = s.is_thinking) (h : StateInv s) : StateInv t := by
  unfold StateInv at *
  rw [hp, ht]
  exact h

lemma truthyStr_iff (o : Option String) :
    truthyStr o = true ↔ ∃ q, o = some q ∧ q ≠ "" := by
  cases o <;> simp [truthyStr]

lemma sample_question_ne (i : Fin 4) : sample_questions.getD i.val "" ≠ "" := by
  fin_cases i <;> simp [sample_questions]

lemma sample_click_value_eq_some {inter : Interaction} {t : AppState}
    {q : String} (heq : sample_click_value inter t = some q) :
    q ≠ "" ∧ t.is_thinking = false ∧ truthyStr t.uploaded_file_name = true := by
  rcases inter with _ | q2 | i | _ | c2 | k2 <;>
    dsimp only [sample_click_value] at heq
  · exact absurd heq (by simp)
  · exact absurd heq (by simp)
  · split at heq
    · rename_i hcond
      rw [Bool.and_eq_true] at hcond
      obtain ⟨hup, hth⟩ := hcond
      have hthf : t.is_thinking = false := by simpa using hth
      have hq := Option.some.inj heq
      subst hq
      exact ⟨sample_question_ne i, hthf, hup⟩
    · exact absurd heq (by simp)
  · exact absurd heq (by simp)
  · exact absurd heq (by simp)
  · exact absurd heq (by simp)

lemma handle_inv (oracle : String → ChainResult) (input : Option String)
    (s : AppState) (h : StateInv s) :
    StateInv (handle_user_input oracle input s).state := by
  unfold handle_user_input
  dsimp only
  by_cases htr : truthyStr (if chatDisabled s then none else input) = true
  · rw [if_pos htr]
    obtain ⟨q, hq, hne⟩ := (truthyStr_iff _).mp htr
    exact Or.inr ⟨q, by simp [hq], hne, rfl⟩
  · rw [if_neg htr]
    exact h

lemma process_inv (oracle : String → ChainResult) (s : AppState)
    (h : StateInv s) :
    StateInv (process_pending_user_message oracle s).state := by
  unfold process_pending_user_message
  dsimp only
  split
  · exact h
  · split
    · exact Or.inl ⟨rfl, rfl⟩
    · exact Or.inl ⟨rfl, rfl⟩

lemma renderPass_inv (available : Bool) (input : RenderInput) (s : AppState)
    (h : StateInv s) : StateInv (renderPass available input s).state := by
  obtain ⟨hs1, hs2, hs3, hs4⟩ := sidebar_keeps_chat_fields input s
  obtain ⟨hu1, hu2, hu3, hu4⟩ :=
    upload_keeps_chat_fields available input.pdfEnv input.file
      (create_configuration_sidebar input s)
  have hinv1 : StateInv (create_configuration_sidebar input s) :=
    StateInv_of_fields hs2 hs1 h
  have hinv2 : StateInv ((create_upload_interface available input.pdfEnv
      input.file (create_configuration_sidebar input s)).1) :=
    StateInv_of_fields hu3 hu2 hinv1
  unfold renderPass
  dsimp only
  split
  · exact hinv1
  · split
    · exact hinv1
    · split
      · rename_i q heq
        exact Or.inr ⟨q, rfl, (sample_click_value_eq_some heq).1, rfl⟩
      · split
        · exact handle_inv _ _ _ hinv2
        · exact process_inv _ _ (handle_inv _ _ _ hinv2)

/-- Every reachable session state satisfies the pending/thinking invariant. -/
lemma reachable_inv {available : Bool} {s : AppState}
    (h : Reachable available s) : StateInv s := by
  induction h with
  | init envKey => exact Or.inl ⟨rfl, rfl⟩
  | step input _ ih => exact renderPass_inv _ input _ ih

/-- The session state after the sidebar and the upload column of one run. -/
def upload_state (available : Bool) (input : RenderInput) (s : AppState) :
    AppState :=
  (create_upload_interface available input.pdfEnv input.file
    (create_configuration_sidebar input s)).1

lemma upload_state_fields (available : Bool) (input : RenderInput)
    (s : AppState) :
    (upload_state available input s).is_thinking = s.is_thinking ∧
    (upload_state available input s).pending_question = s.pending_question ∧
    (upload_state available input s).messages
      = (create_configuration_sidebar input s).messages ∧
    (upload_state available input s).envKey
      = (create_configuration_sidebar input s).envKey := by
  obtain ⟨hs1, hs2, hs3, hs4⟩ := sidebar_keeps_chat_fields input s
  obtain ⟨hu1, hu2, hu3, hu4⟩ :=
    upload_keeps_chat_fields available input.pdfEnv input.file
      (create_configuration_sidebar input s)
  exact ⟨hu2.trans hs1, hu3.trans hs2, hu1, hu4⟩

lemma process_not_thinking (oracle : String → ChainResult) (t : AppState)
    (h : t.is_thinking = false) :
    process_pending_user_message oracle t =
      { state := t, chainCalls := [], rerun := false } := by
  unfold process_pending_user_message
  rw [if_pos (by simp [h])]

lemma process_not_pending (oracle : String → ChainResult) (t : AppState)
    (h : truthyStr t.pending_question = false) :
    process_pending_user_message oracle t =
      { state := t, chainCalls := [], rerun := false } := by
  unfold process_pending_user_message
  rw [if_pos (by simp [h])]

lemma process_thinking_pending (oracle : String → ChainResult) (t : AppState)
    (q : String) (hth : t.is_thinking = true) (hq : t.pending_question = some q)
    (hne : q ≠ "") :
    ∃ m, (process_pending_user_message oracle t).state =
      { t with messages := t.messages ++ [⟨Role.assistant, m⟩]
               pending_question := none
               is_thinking := false } := by
  unfold process_pending_user_message
  rw [if_neg (by simp [hth, hq, truthyStr, hne])]
  dsimp only
  split
  · exact ⟨_, rfl⟩
  · exact ⟨_, rfl⟩

lemma process_answers (oracle : String → ChainResult) (t : AppState)
    (q : String) (c : Chain) (hth : t.is_thinking = true)
    (hq : t.pending_question = some q) (hne : q ≠ "")
    (hc : t.conversation_chain = some c) :
    (process_pending_user_message oracle t).state =
      { t with messages := t.messages ++ [⟨Role.assistant, chain_answer oracle q⟩]
               pending_question := none
               is_thinking := false } := by
  simp [process_pending_user_message, hth, hq, truthyStr, hne, hc]

lemma handle_cases (oracle : String → ChainResult) (input : Option String)
    (s : AppState) :
    (∃ q, q ≠ "" ∧ chatDisabled s = false ∧
      handle_user_input oracle input s =
        { state := { s with
            messages := s.messages ++ [⟨Role.user, q⟩]
            pending_question := some q
            is_thinking := true }
          chainCalls := [], rerun := true })
    ∨ handle_user_input oracle input s =
        { state := s, chainCalls := [], rerun := false } := by
  unfold handle_user_input
  dsimp only
  cases hd : chatDisabled s
  · simp only [Bool.false_eq_true, if_false]
    by_cases htr : truthyStr input = true
    · rw [if_pos htr]
      obtain ⟨q, rfl, hne⟩ := (truthyStr_iff _).mp htr
      exact Or.inl ⟨q, hne, by simp, rfl⟩
    · rw [if_neg htr]
      exact Or.inr rfl
  · rw [if_pos (rfl : (true : Bool) = true)]
    rw [if_neg (by simp [truthyStr])]
    exact Or.inr rfl

/-- One run of the script ends in exactly one of three ways: stopped at a
gate, aborted right after recording a freshly submitted question (sample
button or chat input), or having run the pending-question processor. -/
lemma renderPass_cases (available : Bool) (input : RenderInput) (s : AppState) :
    (∃ stop, renderPass available input s =
        { state := create_configuration_sidebar input s, stopped := some stop
          ranUpload := false, ranChat := false, chainCalls := [] })
    ∨ (∃ q, q ≠ "" ∧ (upload_state available input s).is_thinking = false ∧
        renderPass available input s =
          { state := { upload_state available input s with
              messages := (upload_state available input s).messages
                ++ [⟨Role.user, q⟩]
              pending_question := some q
              is_thinking := true }
            stopped := none, ranUpload := true, ranChat := true
            chainCalls := [] })
    ∨ renderPass available input s =
        { state := (process_pending_user_message input.oracle
            (upload_state available input s)).state
          stopped := none, ranUpload := true, ranChat := true
          chainCalls := (process_pending_user_message input.oracle
            (upload_state available input s)).chainCalls } := by
  unfold renderPass upload_state
  dsimp only
  split
  · exact Or.inl ⟨_, rfl⟩
  · split
    · exact Or.inl ⟨_, rfl⟩
    · split
      · rename_i q heq
        obtain ⟨hne, hth, _⟩ := sample_click_value_eq_some heq
        exact Or.inr (Or.inl ⟨q, hne, hth, rfl⟩)
      · rcases handle_cases input.oracle (chat_input_value input.interaction)
          ((create_upload_interface available input.pdfEnv input.file
            (create_configuration_sidebar input s)).1) with
          ⟨q, hne, hd, hEq⟩ | hEq
        · rw [hEq]
          have hth : ((create_upload_interface available input.pdfEnv input.file
              (create_configuration_sidebar input s)).1).is_thinking = false := by
            revert hd
            unfold chatDisabled
            cases ((create_upload_interface available input.pdfEnv input.file
              (create_configuration_sidebar input s)).1).is_thinking <;> simp
          exact Or.inr (Or.inl ⟨q, hne, hth, rfl⟩)
        · rw [hEq]
          exact Or.inr (Or.inr rfl)

/-- A session state in which a question has just been submitted: thinking,
with a pending question, used to instantiate theorems at concrete inputs. -/
def sAsking : AppState :=
  { sDemo with is_thinking := true, pending_question := some "Hi?" }

lemma renderPass_chat_submit (input : RenderInput) (s : AppState) (q : String)
    (hI : input.interaction = Interaction.chatInput q) (hq : q ≠ "")
    (hdis : chatDisabled (upload_state true input s) = false)
    (hk : truthyStr (create_configuration_sidebar input s).envKey = true) :
    (renderPass true input s).state =
      { upload_state true input s with
        messages := (upload_state true input s).messages ++ [⟨Role.user, q⟩]
        pending_question := some q
        is_thinking := true } := by
  have hsq : truthyStr (some q) = true := by simp [truthyStr, hq]
  have hdis' := hdis
  unfold upload_state at hdis'
  simp [renderPass, upload_state, hI, hk, handle_user_input, hdis', hsq,
    chat_input_value, sample_click_value]

lemma renderPass_sample_submit (input : RenderInput) (s : AppState) (i : Fin 4)
    (hI : input.interaction = Interaction.sampleClick i)
    (hup : truthyStr (upload_state true input s).uploaded_file_name = true)
    (hth : (upload_state true input s).is_thinking = false)
    (hk : truthyStr (create_configuration_sidebar input s).envKey = true) :
    (renderPass true input s).state =
      { upload_state true input s with
        messages := (upload_state true input s).messages
          ++ [⟨Role.user, sample_questions.getD i.val ""⟩]
        pending_question := some (sample_questions.getD i.val "")
        is_thinking := true } := by
  have hup' := hup
  have hth' := hth
  unfold upload_state at hup' hth'
  simp [renderPass, upload_state, hI, hk, sample_click_value, hup', hth']

lemma renderPass_idle_process (env : PdfEnv) (oracle : String → ChainResult)
    (t : AppState) (hk : truthyStr t.envKey = true) :
    (renderPass true ⟨Interaction.idle, none, env, oracle⟩ t).state =
      (process_pending_user_message oracle t).state := by
  simp [renderPass, create_configuration_sidebar, create_upload_interface, hk,
    handle_user_input, chat_input_value, sample_click_value,
    show truthyStr none = false from rfl]

/-- C2: if the invocation of the conversation chain on the pending question
raises an exception `e`, the exception is caught and becomes an assistant
transcript entry reading `"Sorry, I encountered an error: " ++ e`, and
`pending_question` and `is_thinking` are cleared exactly as on success
(namely, for every chain behavior they end cleared). -/
theorem c2_chain_exception_recovered (oracle : String → ChainResult)
    (s : AppState) (q e : String) (c : Chain)
    (hth : s.is_thinking = true) (hp : s.pending_question = some q)
    (hq : q ≠ "") (hc : s.conversation_chain = some c)
    (he : oracle q = ChainResult.err e) :
    (process_pending_user_message oracle s).state =
      { s with
        messages := s.messages ++
          [⟨Role.assistant, "Sorry, I encountered an error: " ++ e⟩]
        pending_question := none
        is_thinking := false }
    ∧ ∀ oracle2 : String → ChainResult,
        (process_pending_user_message oracle2 s).state.pending_question = none ∧
        (process_pending_user_message oracle2 s).state.is_thinking = false := by
  constructor
  · simp [process_pending_user_message, hth, hp, hc, truthyStr, hq,
      chain_answer, he]
  · intro oracle2
    simp [process_pending_user_message, hth, hp, hc, truthyStr, hq]

/-- Witness for C2 at a concrete state and a chain that raises "boom". -/
theorem c2_chain_exception_recovered_witness :
    (process_pending_user_message oracleErr sAsking).state =
      { sAsking with
        messages := sAsking.messages ++
          [⟨Role.assistant, "Sorry, I encountered an error: boom"⟩]
        pending_question := none
        is_thinking := false } :=
  (c2_chain_exception_recovered oracleErr sAsking "Hi?" "boom" 0
    rfl rfl (by decide) rfl rfl).1

/-- C4: `handle_user_input` performs no chain call ever; on a submission it
only records the user message, sets `pending_question` and `is_thinking`,
and ends in a rerun; `process_pending_user_message` is the only place a
chain call happens, and only when `is_thinking` is set and a truthy pending
question exists; and the render pass that receives the submission performs
no chain call at all (the call is deferred to the next pass). -/
theorem c4_deferred_chain_call :
    (∀ (oracle : String → ChainResult) (input : Option String) (s : AppState),
        (handle_user_input oracle input s).chainCalls = [])
    ∧ (∀ (oracle : String → ChainResult) (q : String) (s : AppState),
        q ≠ "" → chatDisabled s = false →
        handle_user_input oracle (some q) s =
          { state := { s with
              messages := s.messages ++ [⟨Role.user, q⟩]
              pending_question := some q
              is_thinking := true }
            chainCalls := []
            rerun := true })
    ∧ (∀ (oracle : String → ChainResult) (s : AppState),
        (process_pending_user_message oracle s).chainCalls ≠ [] →
        s.is_thinking = true ∧ truthyStr s.pending_question = true ∧
        (process_pending_user_message oracle s).chainCalls
          = [s.pending_question.getD ""])
    ∧ (∀ (input : RenderInput) (s : AppState) (q : String),
        input.interaction = Interaction.chatInput q → q ≠ "" →
        chatDisabled ((create_upload_interface true input.pdfEnv input.file
          (create_configuration_sidebar input s)).1) = false →
        truthyStr (create_configuration_sidebar input s).envKey = true →
        (renderPass true input s).chainCalls = []) := by
  refine ⟨?_, ?_, ?_, ?_⟩
  · intro oracle input s
    unfold handle_user_input
    dsimp only
    repeat' split
    all_goals rfl
  · intro oracle q s hq hdis
    simp [handle_user_input, hdis, truthyStr, hq]
  · intro oracle s hne
    unfold process_pending_user_message at hne ⊢
    dsimp only at hne ⊢
    split at hne
    · exact absurd rfl hne
    · rename_i hcond
      have hth : s.is_thinking = true := by
        revert hcond
        cases s.is_thinking <;> simp
      have htr : truthyStr s.pending_question = true := by
        revert hcond
        cases htr2 : truthyStr s.pending_question <;> simp [htr2, hth]
      refine ⟨hth, htr, ?_⟩
      rw [if_neg (by simp [hth, htr])]
      split at hne
      · exact absurd rfl hne
      · rename_i hchain
        rw [if_neg hchain]
  · intro input s q hI hq hdis hk
    have hsq : truthyStr (some q) = true := by simp [truthyStr, hq]
    simp [renderPass, hI, hk, handle_user_input, hdis, hsq,
      chat_input_value, sample_click_value]

/-- Witness for C4 at a concrete submission. -/
theorem c4_deferred_chain_call_witness :
    handle_user_input oracleOk (some "Hi?") sDemo =
      { state := { sDemo with
          messages := sDemo.messages ++ [⟨Role.user, "Hi?"⟩]
          pending_question := some "Hi?"
          is_thinking := true }
        chainCalls := []
        rerun := true } :=
  c4_deferred_chain_call.2.1 oracleOk "Hi?" sDemo (by decide) rfl

/-- C5: inside `create_upload_interface`, `process_pdf_document` is invoked
iff a file is present whose name differs from the stored
`uploaded_file_name`; a file with an unchanged name is never reprocessed,
whatever its content. -/
theorem c5_reprocess_iff_new_name (available : Bool) (env : PdfEnv)
    (s : AppState) (f : UFile) :
    ((create_upload_interface available env (some f) s).2 = true ↔
      s.uploaded_file_name ≠ some f.name)
    ∧ (create_upload_interface available env none s).2 = false
    ∧ ∀ g : UFile, g.name = f.name →
        (create_upload_interface available env (some g) s).2 =
          (create_upload_interface available env (some f) s).2 := by
  refine ⟨?_, rfl, ?_⟩
  · unfold create_upload_interface
    dsimp only
    by_cases hn : s.uploaded_file_name ≠ some f.name
    · rw [if_pos hn]
      refine iff_of_true ?_ hn
      dsimp only
      split <;> rfl
    · rw [if_neg hn]
      exact iff_of_false (by simp) hn
  · intro g hg
    unfold create_upload_interface
    dsimp only
    rw [hg]
    by_cases hn : s.uploaded_file_name ≠ some f.name
    · rw [if_pos hn, if_pos hn]
      split <;> split <;> rfl
    · rw [if_neg hn, if_neg hn]

/-- Witness for C5: a file with a fresh name is processed. -/
theorem c5_reprocess_iff_new_name_witness :
    (create_upload_interface true pdfEnvOk (some fNew) sDemo).2 = true :=
  (c5_reprocess_iff_new_name true pdfEnvOk sDemo fNew).1.mpr (by decide)

/-- C6 counterexample: the claim that no operation besides the retrieval
invocation converts a raised exception into a recovered result says that
`process_pdf_document` returns whatever its try body produces with no
recovery, i.e. the body's outcome is always the `Except.ok` image of the
function's result.  This is false: with a failing PDF loader the body
raises while the function still returns a normal `(state, False)` result. -/
theorem c6_only_chat_guarded_counterexample :
    ¬ ∀ (env : PdfEnv) (f : UFile) (s : AppState),
        process_pdf_try_body env f s =
          Except.ok (process_pdf_document true env f s) := by
  intro hclaim
  have h := hclaim pdfEnvLoadFail fNew sDemo
  rw [show process_pdf_try_body pdfEnvLoadFail fNew sDemo =
      Except.error ("corrupt pdf", sDemo) from rfl] at h
  exact absurd h (by simp)

/-- C6 amended: the failure-recovery logic consists of exactly two
exception handlers: the one wrapping the whole body of
`process_pdf_document`, which converts any raised exception (in PDF
loading, splitting, embedding, vector-store or chain construction alike)
into an error display and a `False` return, and the one around the
retrieval/chat invocation, which converts a raised exception into an error
transcript entry. -/
theorem c6_pdf_recovery_amended :
    (∀ (env : PdfEnv) (f : UFile) (s : AppState) (e : String) (s1 : AppState),
        process_pdf_try_body env f s = Except.error (e, s1) →
        process_pdf_document true env f s = (s1, false))
    ∧ (∀ (oracle : String → ChainResult) (s : AppState) (q e : String)
        (c : Chain),
        s.is_thinking = true → s.pending_question = some q → q ≠ "" →
        s.conversation_chain = some c → oracle q = ChainResult.err e →
        (process_pending_user_message oracle s).state.messages =
          s.messages ++
            [⟨Role.assistant, "Sorry, I encountered an error: " ++ e⟩]) := by
  constructor
  · intro env f s e s1 hbody
    unfold process_pdf_document
    rw [hbody]
    rfl
  · intro oracle s q e c hth hp hq hc he
    rw [(c2_chain_exception_recovered oracle s q e c hth hp hq hc he).1]

/-- Witness for the amended C6: the failing loader is recovered into a
`False` return with the session state untouched. -/
theorem c6_pdf_recovery_amended_witness :
    process_pdf_document true pdfEnvLoadFail fNew sDemo = (sDemo, false) :=
  c6_pdf_recovery_amended.1 pdfEnvLoadFail fNew sDemo "corrupt pdf" sDemo rfl

/-- C7: with the libraries unavailable, or with the API key falsy after the
sidebar ran, `main` stops at a static error/warning before the upload and
chat interfaces: neither runs, and no chain call happens. -/
theorem c7_missing_deps_or_key_stops (input : RenderInput) (s : AppState) :
    ((renderPass false input s).stopped = some StopKind.missingDeps ∧
     (renderPass false input s).ranUpload = false ∧
     (renderPass false input s).ranChat = false ∧
     (renderPass false input s).chainCalls = [] ∧
     (renderPass false input s).state = create_configuration_sidebar input s)
    ∧ (truthyStr (create_configuration_sidebar input s).envKey = false →
        (renderPass true input s).stopped = some StopKind.missingKey ∧
        (renderPass true input s).ranUpload = false ∧
        (renderPass true input s).ranChat = false ∧
        (renderPass true input s).chainCalls = [] ∧
        (renderPass true input s).state
          = create_configuration_sidebar input s) := by
  constructor
  · exact ⟨rfl, rfl, rfl, rfl, rfl⟩
  · intro hk
    simp [renderPass, hk]

/-- Witness for C7 at a fresh session with no API key anywhere. -/
theorem c7_missing_deps_or_key_stops_witness :
    (renderPass true ⟨Interaction.idle, none, pdfEnvOk, oracleOk⟩
      (init_session_state none)).stopped = some StopKind.missingKey :=
  ((c7_missing_deps_or_key_stops ⟨Interaction.idle, none, pdfEnvOk, oracleOk⟩
    (init_session_state none)).2 rfl).1

/-- C9: `process_pdf_document` is not atomic on error: with a library
environment in which the chat-model constructor raises after
`FAISS.from_documents` succeeded, it returns `False` and the upload
interface leaves `uploaded_file_name` unchanged, yet `vectorstore` has
already been replaced with the new document's store while
`conversation_chain` keeps its previous value. -/
theorem c9_pdf_not_atomic :
    (process_pdf_document true pdfEnvChatFail fNew sDemo).2 = false ∧
    (create_upload_interface true pdfEnvChatFail (some fNew) sDemo).1.uploaded_file_name
      = sDemo.uploaded_file_name ∧
    (create_upload_interface true pdfEnvChatFail (some fNew) sDemo).1.vectorstore
      = some ["page one"] ∧
    sDemo.vectorstore ≠ some ["page one"] ∧
    (create_upload_interface true pdfEnvChatFail (some fNew) sDemo).1.conversation_chain
      = sDemo.conversation_chain :=
  ⟨rfl, rfl, rfl, by decide, rfl⟩

/-- C1: a question q submitted while a conversation chain exists — through
the chat input or a sample-question button — is answered on the next render
pass: after `process_pending_user_message` runs there, the transcript ends
with the user entry q followed by exactly one assistant entry holding the
chain's answer or the error message. -/
theorem c1_question_then_one_answer (oracle : String → ChainResult)
    (env : PdfEnv) (q : String) (s : AppState) (c : Chain)
    (hc : s.conversation_chain = some c) (hq : q ≠ "")
    (ht : s.is_thinking = false) (hk : truthyStr s.envKey = true) :
    ((renderPass true ⟨Interaction.idle, none, env, oracle⟩
        (renderPass true ⟨Interaction.chatInput q, none, env, oracle⟩ s).state).state.messages
      = s.messages ++ [⟨Role.user, q⟩, ⟨Role.assistant, chain_answer oracle q⟩])
    ∧ (∀ i : Fin 4, truthyStr s.uploaded_file_name = true →
        (renderPass true ⟨Interaction.idle, none, env, oracle⟩
          (renderPass true ⟨Interaction.sampleClick i, none, env, oracle⟩ s).state).state.messages
        = s.messages ++ [⟨Role.user, sample_questions.getD i.val ""⟩,
            ⟨Role.assistant, chain_answer oracle (sample_questions.getD i.val "")⟩]) := by
  constructor
  · have hup : upload_state true ⟨Interaction.chatInput q, none, env, oracle⟩ s
        = s := rfl
    have hdis : chatDisabled
        (upload_state true ⟨Interaction.chatInput q, none, env, oracle⟩ s)
        = false := by
      rw [hup]
      simp [chatDisabled, ht, hc]
    have h1 : (renderPass true ⟨Interaction.chatInput q, none, env, oracle⟩
        s).state =
        { s with messages := s.messages ++ [⟨Role.user, q⟩]
                 pending_question := some q
                 is_thinking := true } :=
      renderPass_chat_submit
        ⟨Interaction.chatInput q, none, env, oracle⟩ s q rfl hq hdis hk
    rw [h1,
      renderPass_idle_process env oracle
        { s with messages := s.messages ++ [⟨Role.user, q⟩]
                 pending_question := some q
                 is_thinking := true } hk,
      process_answers oracle
        { s with messages := s.messages ++ [⟨Role.user, q⟩]
                 pending_question := some q
                 is_thinking := true } q c rfl rfl hq hc]
    show (s.messages ++ [⟨Role.user, q⟩])
        ++ [⟨Role.assistant, chain_answer oracle q⟩] = _
    rw [List.append_assoc]
    rfl
  · intro i hupl
    have hup : upload_state true ⟨Interaction.sampleClick i, none, env, oracle⟩ s
        = s := rfl
    have h1 : (renderPass true ⟨Interaction.sampleClick i, none, env, oracle⟩
        s).state =
        { s with messages :=
            s.messages ++ [⟨Role.user, sample_questions.getD i.val ""⟩]
                 pending_question := some (sample_questions.getD i.val "")
                 is_thinking := true } :=
      renderPass_sample_submit
        ⟨Interaction.sampleClick i, none, env, oracle⟩ s i rfl
        (by rw [hup]; exact hupl) (by rw [hup]; exact ht) hk
    rw [h1,
      renderPass_idle_process env oracle
        { s with messages :=
            s.messages ++ [⟨Role.user, sample_questions.getD i.val ""⟩]
                 pending_question := some (sample_questions.getD i.val "")
                 is_thinking := true } hk,
      process_answers oracle
        { s with messages :=
            s.messages ++ [⟨Role.user, sample_questions.getD i.val ""⟩]
                 pending_question := some (sample_questions.getD i.val "")
                 is_thinking := true } (sample_questions.getD i.val "") c
        rfl rfl (sample_question_ne i) hc]
    show (s.messages ++ [⟨Role.user, sample_questions.getD i.val ""⟩])
        ++ [⟨Role.assistant, chain_answer oracle (sample_questions.getD i.val "")⟩] = _
    rw [List.append_assoc]
    rfl

/-- Witness for C1 at a concrete session with a live chain. -/
theorem c1_question_then_one_answer_witness :
    (renderPass true ⟨Interaction.idle, none, pdfEnvOk, oracleOk⟩
        (renderPass true ⟨Interaction.chatInput "Hi?", none, pdfEnvOk, oracleOk⟩
          sDemo).state).state.messages
      = sDemo.messages ++ [⟨Role.user, "Hi?"⟩,
          ⟨Role.assistant, chain_answer oracleOk "Hi?"⟩] :=
  (c1_question_then_one_answer oracleOk pdfEnvOk "Hi?" sDemo 0
    rfl (by decide) rfl rfl).1

/-- C3: in reachable session states at rerun boundaries, `is_thinking` is
true exactly while a (nonempty) question is pending; a render pass turns it
from false to true only by recording a pending question whose user entry is
the last transcript entry, and from true to false only by appending an
assistant (answer or error) entry as the last transcript entry. -/
theorem c3_thinking_only_between (available : Bool) :
    (∀ s : AppState, Reachable available s →
        (s.is_thinking = true ↔ ∃ q, s.pending_question = some q ∧ q ≠ ""))
    ∧ (∀ (s : AppState) (input : RenderInput),
        s.is_thinking = false →
        (renderPass available input s).state.is_thinking = true →
        ∃ (q : String) (pre : List Message), q ≠ "" ∧
          (renderPass available input s).state.pending_question = some q ∧
          (renderPass available input s).state.messages
            = pre ++ [⟨Role.user, q⟩])
    ∧ (∀ (s : AppState) (input : RenderInput),
        s.is_thinking = true →
        (renderPass available input s).state.is_thinking = false →
        ∃ (pre : List Message) (m : String),
          (renderPass available input s).state.messages
            = pre ++ [⟨Role.assistant, m⟩]) := by
  refine ⟨?_, ?_, ?_⟩
  · intro s h
    rcases reachable_inv h with ⟨hp, hth⟩ | ⟨q, hq, hne, hth⟩
    · refine iff_of_false (by simp [hth]) ?_
      rintro ⟨q, hq, -⟩
      rw [hp] at hq
      cases hq
    · exact iff_of_true hth ⟨q, hq, hne⟩
  · intro s input h0 h1
    rcases renderPass_cases available input s with
      ⟨stop, hEq⟩ | ⟨q, hne, hthk, hEq⟩ | hEq
    · rw [hEq] at h1
      obtain ⟨hs1, -, -, -⟩ := sidebar_keeps_chat_fields input s
      dsimp only at h1
      rw [hs1, h0] at h1
      exact absurd h1 (by simp)
    · rw [hEq]
      exact ⟨q, (upload_state available input s).messages, hne, rfl, rfl⟩
    · rw [hEq] at h1 ⊢
      obtain ⟨hu1, -, -, -⟩ := upload_state_fields available input s
      have hthink : (upload_state available input s).is_thinking = false :=
        hu1.trans h0
      rw [process_not_thinking input.oracle _ hthink] at h1
      dsimp only at h1
      rw [hthink] at h1
      exact absurd h1 (by simp)
  · intro s input h0 h1
    rcases renderPass_cases available input s with
      ⟨stop, hEq⟩ | ⟨q, hne, hthk, hEq⟩ | hEq
    · rw [hEq] at h1
      obtain ⟨hs1, -, -, -⟩ := sidebar_keeps_chat_fields input s
      dsimp only at h1
      rw [hs1, h0] at h1
      exact absurd h1 (by simp)
    · obtain ⟨hu1, -, -, -⟩ := upload_state_fields available input s
      rw [hu1, h0] at hthk
      exact absurd hthk (by simp)
    · rw [hEq] at h1 ⊢
      obtain ⟨hu1, -, -, -⟩ := upload_state_fields available input s
      have hthink : (upload_state available input s).is_thinking = true :=
        hu1.trans h0
      by_cases htr : truthyStr (upload_state available input s).pending_question
          = true
      · obtain ⟨q, hq, hne⟩ := (truthyStr_iff _).mp htr
        obtain ⟨m, hm⟩ :=
          process_thinking_pending input.oracle _ q hthink hq hne
        dsimp only
        rw [hm]
        exact ⟨(upload_state available input s).messages, m, rfl⟩
      · have hf : truthyStr (upload_state available input s).pending_question
            = false := by
          revert htr
          cases truthyStr (upload_state available input s).pending_question <;>
            simp
        rw [process_not_pending input.oracle _ hf] at h1
        dsimp only at h1
        rw [hthink] at h1
        exact absurd h1 (by simp)

/-- Witness for C3 at a concrete pass turning the thinking flag on. -/
theorem c3_thinking_only_between_witness :
    ∃ (q : String) (pre : List Message), q ≠ "" ∧
      (renderPass true ⟨Interaction.chatInput "Hi?", none, pdfEnvOk, oracleOk⟩
        sDemo).state.pending_question = some q ∧
      (renderPass true ⟨Interaction.chatInput "Hi?", none, pdfEnvOk, oracleOk⟩
        sDemo).state.messages = pre ++ [⟨Role.user, q⟩] :=
  (c3_thinking_only_between true).2.1 sDemo
    ⟨Interaction.chatInput "Hi?", none, pdfEnvOk, oracleOk⟩ rfl rfl

/-- C8: in every reachable session state the pending-question slot is
either empty (None) or holds a nonempty string, and in the latter case the
app is thinking (the question is not yet answered); it is initialized
empty, set on submission, and reset when the answer or error is appended. -/
theorem c8_pending_slot_invariant (available : Bool) (s : AppState)
    (h : Reachable available s) :
    s.pending_question = none ∨
    ∃ q : String, s.pending_question = some q ∧ q ≠ "" ∧
      s.is_thinking = true := by
  rcases reachable_inv h with ⟨hp, -⟩ | ⟨q, hq, hne, hth⟩
  · exact Or.inl hp
  · exact Or.inr ⟨q, hq, hne, hth⟩

/-- Witness for C8 at the freshly initialized session. -/
theorem c8_pending_slot_invariant_witness :
    (init_session_state none).pending_question = none ∨
    ∃ q : String, (init_session_state none).pending_question = some q ∧
      q ≠ "" ∧ (init_session_state none).is_thinking = true :=
  c8_pending_slot_invariant false (init_session_state none)
    (Reachable.init none)

end PdfChatbot

namespace TaskApp

lemma treachable_inv {s : TasksState} (h : TReachable s) :
    (s.tasks.map Task.id).Nodup ∧ ∀ t ∈ s.tasks, t.id < s.task_counter := by
  induction h with
  | init => exact ⟨by decide, by decide⟩
  | add title priority due h ih =>
    obtain ⟨hnd, hlt⟩ := ih
    unfold add_task
    split
    · constructor
      · rw [List.map_append, List.nodup_append]
        refine ⟨hnd, List.nodup_singleton _, ?_⟩
        intro a ha hb
        simp only [List.map_cons, List.map_nil, List.mem_singleton] at hb
        subst hb
        obtain ⟨t, htl, hta⟩ := List.mem_map.mp ha
        exact absurd hta (Nat.ne_of_lt (hlt t htl))
      · intro t ht
        rcases List.mem_append.mp ht with h1 | h2
        · exact Nat.lt_succ_of_lt (hlt t h1)
        · rw [List.mem_singleton] at h2
          subst h2
          exact Nat.lt_succ_self _
    · exact ⟨hnd, hlt⟩
  | delete id h ih =>
    obtain ⟨hnd, hlt⟩ := ih
    unfold delete_task
    constructor
    · exact hnd.sublist ((List.filter_sublist _).map Task.id)
    · intro t ht
      exact hlt t (List.mem_of_mem_filter ht)

lemma filter_ne_eq_erase {l : List Task} (hnd : (l.map Task.id).Nodup)
    {t : Task} (ht : t ∈ l) :
    l.filter (fun u => u.id != t.id) = l.erase t := by
  induction l with
  | nil => cases ht
  | cons a tl ih =>
    rw [List.map_cons, List.nodup_cons] at hnd
    obtain ⟨hna, hnd'⟩ := hnd
    rcases List.mem_cons.mp ht with rfl | htl
    · rw [List.erase_cons_head, List.filter_cons, if_neg (by simp)]
      refine List.filter_eq_self.mpr ?_
      intro u hu
      have hune : u.id ≠ t.id := by
        intro hEq
        exact hna (hEq ▸ List.mem_map_of_mem Task.id hu)
      simpa using hune
    · have haid : a.id ≠ t.id := by
        intro hEq
        exact hna (hEq ▸ List.mem_map_of_mem Task.id htl)
      have hat : ¬(a == t) = true := by
        intro hEq
        exact haid (congrArg Task.id (eq_of_beq hEq))
      rw [List.filter_cons, if_pos (by simpa using haid),
        List.erase_cons_tail hat, ih hnd' htl]

/-- C10: the task mini-app keeps task ids unique in every reachable state:
the two initial tasks carry ids 1 and 2 with counter 3; the form hands the
current counter to each added task and increments it, so the counter
strictly exceeds every stored id; and a task's delete button removes
exactly that one task from the list. -/
theorem c10_task_ids_unique :
    (init_tasks_state.tasks.map Task.id = [1, 2] ∧
      init_tasks_state.task_counter = 3)
    ∧ (∀ (title priority due : String) (s : TasksState), title ≠ "" →
        (add_task title priority due s).tasks
          = s.tasks ++ [⟨s.task_counter, title, "Todo", priority, due⟩] ∧
        (add_task title priority due s).task_counter = s.task_counter + 1)
    ∧ (∀ s : TasksState, TReachable s →
        (s.tasks.map Task.id).Nodup ∧ ∀ t ∈ s.tasks, t.id < s.task_counter)
    ∧ (∀ s : TasksState, TReachable s → ∀ t ∈ s.tasks,
        (delete_task t.id s).tasks = s.tasks.erase t) := by
  refine ⟨⟨rfl, rfl⟩, ?_, ?_, ?_⟩
  · intro title priority due s hT
    unfold add_task
    rw [if_pos hT]
    exact ⟨rfl, rfl⟩
  · exact fun s h => treachable_inv h
  · intro s h t ht
    unfold delete_task
    exact filter_ne_eq_erase (treachable_inv h).1 ht

/-- Witness for C10 at the initial state, deleting the first task. -/
theorem c10_task_ids_unique_witness :
    ((init_tasks_state.tasks.map Task.id).Nodup) ∧
    (delete_task 1 init_tasks_state).tasks =
      init_tasks_state.tasks.erase
        ⟨1, "Complete Streamlit tutorial", "In Progress", "High", "2024-02-15"⟩ :=
  ⟨(c10_task_ids_unique.2.2.1 init_tasks_state TReachable.init).1,
   c10_task_ids_unique.2.2.2 init_tasks_state TReachable.init
     ⟨1, "Complete Streamlit tutorial", "In Progress", "High", "2024-02-15"⟩
     (by decide)⟩

end TaskApp
